import Mathlib

/-!
Verification of the event-driven finite-state-machine dispatcher
(`fsm_cpp/qfsm.hpp`) and its two-state example machine (`fsm_cpp/main.cpp`).

Shallow embedding.  In the C++ source a state is a member-function pointer
(`QStateHandler`) stored in the single mutable field `m_state` of the CRTP
base class `QFsm<F>`.  Here a state is an element of an abstract handler-name
type `S`; the machine object is a structure holding the `m_state` slot
(`Option S`, `none` standing for the `nullptr` of the default constructor)
together with the derived class's own data fields, abstracted as a value of
type `σ`.  A handler family is a function that, given the handler being
invoked, the current value of the `m_state` slot (readable and writable by
the handler body, exactly as a C++ member function can read and assign
`this->m_state`), the derived-class data, and the event, returns the new
slot value, the new data, and the `QState` return value.  `Q_TRAN(target)`
of the source is the handler returning `(target, a, Q_EVENT_TRAN)`.

`init` and `dispatch` return, besides the updated machine, the trace of
handler invocations they perform: the list of (invoked handler, event)
pairs in invocation order.  This is the observable "call sequence" of the
specification.
-/

abbrev QState := Int

abbrev QSignal := Int

structure QEvent where
  sig : QSignal
deriving DecidableEq, Repr

/-- Return codes of `enum QEventResult` (plain `int`s in the source,
since handlers return `QState = int`). -/
def Q_EVENT_HANDLED : QState := 0

def Q_EVENT_IGNORED : QState := 1

def Q_EVENT_TRAN : QState := 2

/-- Reserved signals of `enum QReservedSignal`. -/
def Q_EMPTY_SIG : QSignal := 0

def Q_ENTRY_SIG : QSignal := 1

def Q_EXIT_SIG : QSignal := 2

def Q_INIT_SIG : QSignal := 3

/-- A state-handler family: arguments are the handler being invoked
(the `this->*p` target), the current value of the `m_state` slot at the
moment of the call, the derived-class data, and the event; the results are
the slot value after the call (handlers may assign `m_state`, e.g. through
`Q_TRAN`), the new derived-class data, and the returned `QState`. -/
abbrev QStateHandler (S σ : Type) := S → S → σ → QEvent → S × σ × QState

/-- The machine object: the `m_state` slot of `QFsm` plus the fields of the
derived class `F`, abstracted as `app : σ`. -/
structure QFsm (S σ : Type) where
  m_state : Option S
  app : σ
deriving DecidableEq, Repr

/-- The default constructor `QFsm() : m_state(nullptr)`. -/
def QFsm.new (a : σ) : QFsm S σ := ⟨none, a⟩

/-- The handler-body helper `Q_HANDLED()`: leave the slot and data alone,
return `Q_EVENT_HANDLED`. -/
def Q_HANDLED (cur : S) (a : σ) : S × σ × QState := (cur, a, Q_EVENT_HANDLED)

/-- The handler-body helper `Q_IGNORED()`. -/
def Q_IGNORED (cur : S) (a : σ) : S × σ × QState := (cur, a, Q_EVENT_IGNORED)

/-- The handler-body macro `Q_TRAN(target_)`: assign `m_state = target_`
and return `Q_EVENT_TRAN`. -/
def Q_TRAN (target_ : S) (a : σ) : S × σ × QState := (target_, a, Q_EVENT_TRAN)

/-- The static table `QFsm::m_reserved_ev` of synthetic reserved events. -/
def QFsm.m_reserved_ev : List QEvent :=
  [⟨Q_EMPTY_SIG⟩, ⟨Q_ENTRY_SIG⟩, ⟨Q_EXIT_SIG⟩, ⟨Q_INIT_SIG⟩]

/-- The synthetic event `m_reserved_ev[Q_ENTRY_SIG]`. -/
def entry_ev : QEvent := QFsm.m_reserved_ev.get ⟨Q_ENTRY_SIG.toNat, by decide⟩

/-- The synthetic event `m_reserved_ev[Q_EXIT_SIG]`. -/
def exit_ev : QEvent := QFsm.m_reserved_ev.get ⟨Q_EXIT_SIG.toNat, by decide⟩

/-- The synthetic event `m_reserved_ev[Q_INIT_SIG]`. -/
def init_ev : QEvent := QFsm.m_reserved_ev.get ⟨Q_INIT_SIG.toNat, by decide⟩

/-- `QFsm::init(init_state)`: set `m_state = init_state`, then call
`(this->*m_state)(m_reserved_ev[Q_INIT_SIG])` and
`(this->*m_state)(m_reserved_ev[Q_ENTRY_SIG])`, re-reading `m_state` before
each call.  Returns the updated machine and the invocation trace. -/
def QFsm.init (H : QStateHandler S σ) (m : QFsm S σ) (init_state : S) :
    QFsm S σ × List (S × QEvent) :=
  let t1 := H init_state init_state m.app init_ev
  let t2 := H t1.1 t1.1 t1.2.1 entry_ev
  (⟨some t2.1, t2.2.1⟩, [(init_state, init_ev), (t1.1, entry_ev)])

/-- The body of `QFsm::dispatch` after the null check, with `s` the captured
handler and the slot known to hold `s`:  call `s` with the event; if it
returned `Q_EVENT_TRAN`, call `s` with `m_reserved_ev[Q_EXIT_SIG]` and then
call the current `m_state` (re-read after the exit call) with
`m_reserved_ev[Q_ENTRY_SIG]`. -/
def QFsm.dispatchRun (H : QStateHandler S σ) (s : S) (a : σ) (e : QEvent) :
    QFsm S σ × List (S × QEvent) :=
  let t1 := H s s a e
  if t1.2.2 = Q_EVENT_TRAN then
    let t2 := H s t1.1 t1.2.1 exit_ev
    let t3 := H t2.1 t2.1 t2.2.1 entry_ev
    (⟨some t3.1, t3.2.1⟩, [(s, e), (s, exit_ev), (t2.1, entry_ev)])
  else
    (⟨some t1.1, t1.2.1⟩, [(s, e)])

/-- `QFsm::dispatch(e)`: return immediately if `m_state` is null, else run
the dispatch body on the captured handler. -/
def QFsm.dispatch (H : QStateHandler S σ) (m : QFsm S σ) (e : QEvent) :
    QFsm S σ × List (S × QEvent) :=
  match m.m_state with
  | none => (m, [])
  | some s => QFsm.dispatchRun H s m.app e

/-- Repeated `dispatch` calls, one per event of the list (the `for` loop of
`main.cpp`), concatenating the invocation traces. -/
def QFsm.dispatchSeq (H : QStateHandler S σ) (m : QFsm S σ) :
    List QEvent → QFsm S σ × List (S × QEvent)
  | [] => (m, [])
  | e :: es =>
    let r1 := QFsm.dispatch H m e
    let r2 := QFsm.dispatchSeq H r1.1 es
    (r2.1, r1.2 ++ r2.2)

/-- The `m_state` value observed after each successive `dispatch` call. -/
def QFsm.afterStates (H : QStateHandler S σ) (m : QFsm S σ) :
    List QEvent → List (Option S)
  | [] => []
  | e :: es =>
    let m1 := (QFsm.dispatch H m e).1
    m1.m_state :: QFsm.afterStates H m1 es

/-! The example machine of `main.cpp`: `class MyFSM : public QFsm<MyFSM>`
with handlers `state_a` and `state_b` and no data fields of its own
(`σ := Unit`; the `std::cout` lines are not modelled). -/

inductive MyStateId
  | state_a
  | state_b
deriving DecidableEq, Repr

/-- `MyFSM::Q_TIMEOUT_SIG = Q_INIT_SIG + 1`. -/
def Q_TIMEOUT_SIG : QSignal := Q_INIT_SIG + 1

/-- The handler bodies of `MyFSM::state_a` and `MyFSM::state_b`: on
`Q_TIMEOUT_SIG` each returns `Q_TRAN` to the other state; every other
signal (including `ENTRY`/`EXIT`, whose branches only print) falls through
to `return Q_HANDLED()`. -/
def MyFSM : QStateHandler MyStateId Unit := fun p cur a e =>
  match p with
  | .state_a =>
    if e.sig = Q_TIMEOUT_SIG then Q_TRAN MyStateId.state_b a
    else Q_HANDLED cur a
  | .state_b =>
    if e.sig = Q_TIMEOUT_SIG then Q_TRAN MyStateId.state_a a
    else Q_HANDLED cur a

/-- `MyFSM::my_event`: the single application event, carrying
`Q_TIMEOUT_SIG`. -/
def my_event : List QEvent := [⟨Q_TIMEOUT_SIG⟩]

/-- The machine of `main` right after `fsm.init(&MyFSM::state_a)`. -/
def myfsm0 : QFsm MyStateId Unit :=
  (QFsm.init MyFSM (QFsm.new ()) MyStateId.state_a).1

example : myfsm0.m_state = some MyStateId.state_a := by decide

example :
    (QFsm.dispatch MyFSM myfsm0 ⟨Q_TIMEOUT_SIG⟩).2 =
      [(MyStateId.state_a, ⟨Q_TIMEOUT_SIG⟩), (MyStateId.state_a, exit_ev),
        (MyStateId.state_b, entry_ev)] := by decide

/-- A three-state handler family used to exercise the corner cases in which
a handler assigns the `m_state` slot while processing a synthetic event:
`sA` transitions to `sB` on signal 10, ignores signal 11, and performs
`Q_TRAN(sC)` while processing `EXIT`; `sB` transitions to itself on signal
12; `sC` performs `Q_TRAN(sA)` while processing `ENTRY`. -/
inductive DemoState
  | sA
  | sB
  | sC
deriving DecidableEq, Repr

def demoH : QStateHandler DemoState Unit := fun p cur a e =>
  match p with
  | .sA =>
    if e.sig = 10 then Q_TRAN DemoState.sB a
    else if e.sig = 11 then Q_IGNORED cur a
    else if e.sig = Q_EXIT_SIG then Q_TRAN DemoState.sC a
    else Q_HANDLED cur a
  | .sB =>
    if e.sig = 12 then Q_TRAN DemoState.sB a
    else Q_HANDLED cur a
  | .sC =>
    if e.sig = Q_ENTRY_SIG then Q_TRAN DemoState.sA a
    else Q_HANDLED cur a

/-! Unfolding lemmas for `dispatch`. -/

theorem QFsm.dispatch_of_none (H : QStateHandler S σ) (m : QFsm S σ)
    (e : QEvent) (h : m.m_state = none) : QFsm.dispatch H m e = (m, []) := by
  unfold QFsm.dispatch
  rw [h]

theorem QFsm.dispatch_of_some (H : QStateHandler S σ) (m : QFsm S σ)
    (e : QEvent) (s : S) (h : m.m_state = some s) :
    QFsm.dispatch H m e = QFsm.dispatchRun H s m.app e := by
  unfold QFsm.dispatch
  rw [h]

/-- `dispatchRun` when the triggering call requests a transition: the exit
call goes to the captured old handler `s` with the slot as the triggering
call left it, and the entry call goes to whatever the slot holds after the
exit call returned. -/
theorem QFsm.dispatchRun_tran (H : QStateHandler S σ) (s : S) (a : σ)
    (e : QEvent) (s1 : S) (a1 : σ)
    (h1 : H s s a e = (s1, a1, Q_EVENT_TRAN)) :
    QFsm.dispatchRun H s a e =
      (⟨some (H (H s s1 a1 exit_ev).1 (H s s1 a1 exit_ev).1
          (H s s1 a1 exit_ev).2.1 entry_ev).1,
        (H (H s s1 a1 exit_ev).1 (H s s1 a1 exit_ev).1
          (H s s1 a1 exit_ev).2.1 entry_ev).2.1⟩,
       [(s, e), (s, exit_ev), ((H s s1 a1 exit_ev).1, entry_ev)]) := by
  unfold QFsm.dispatchRun
  rw [h1]
  simp

/-- `dispatchRun` when the triggering call does not request a transition:
the slot keeps whatever the handler left in it and only the one triggering
invocation happens. -/
theorem QFsm.dispatchRun_no_tran (H : QStateHandler S σ) (s : S) (a : σ)
    (e : QEvent) (s1 : S) (a1 : σ) (r : QState)
    (h1 : H s s a e = (s1, a1, r)) (hr : r ≠ Q_EVENT_TRAN) :
    QFsm.dispatchRun H s a e = (⟨some s1, a1⟩, [(s, e)]) := by
  unfold QFsm.dispatchRun
  rw [h1]
  simp [hr]

/-- C4: dispatching on a freshly constructed machine, on which `init` was
never called, is a silent no-op: the `m_state` slot is still null, so
`dispatch` invokes no handler (empty trace), changes nothing, and returns
normally (it is a total function). -/
theorem QFsm.dispatch_before_init_noop (H : QStateHandler S σ) (a : σ)
    (e : QEvent) : QFsm.dispatch H (QFsm.new a) e = (QFsm.new a, []) := rfl

/-- C6: the reserved signal constants are the fixed values
`EMPTY = 0`, `ENTRY = 1`, `EXIT = 2`, `INIT = 3` (one shared definition,
mirroring the single static `m_reserved_ev` table every instance reads);
the synthetic reserved event for each reserved signal carries exactly that
signal value, and the example machine's application signal starts at
`INIT + 1`. -/
theorem QFsm.reserved_signal_values :
    Q_EMPTY_SIG = 0 ∧ Q_ENTRY_SIG = 1 ∧ Q_EXIT_SIG = 2 ∧ Q_INIT_SIG = 3 ∧
    QFsm.m_reserved_ev =
      [⟨Q_EMPTY_SIG⟩, ⟨Q_ENTRY_SIG⟩, ⟨Q_EXIT_SIG⟩, ⟨Q_INIT_SIG⟩] ∧
    entry_ev.sig = Q_ENTRY_SIG ∧ exit_ev.sig = Q_EXIT_SIG ∧
    init_ev.sig = Q_INIT_SIG ∧
    Q_INIT_SIG + 1 ≤ Q_TIMEOUT_SIG := by decide

/-- C2: `init(H0)` records `H0` and delivers exactly one synthetic `INIT`
and then one synthetic `ENTRY` to it, nothing else; both return values
`r1`, `r2` are arbitrary (ignored), so `init` proceeds to the `ENTRY` step
regardless of what the handler returns.  The hypotheses state that `H0`
does not reassign the `m_state` slot while processing `INIT` or `ENTRY`
(the state-handler contract for lifecycle signals); afterwards the machine
is running with active handler `H0`. -/
theorem QFsm.init_seq (H : QStateHandler S σ) (m : QFsm S σ) (H0 : S)
    (a1 a2 : σ) (r1 r2 : QState)
    (h1 : H H0 H0 m.app init_ev = (H0, a1, r1))
    (h2 : H H0 H0 a1 entry_ev = (H0, a2, r2)) :
    QFsm.init H m H0 =
      (⟨some H0, a2⟩, [(H0, init_ev), (H0, entry_ev)]) := by
  unfold QFsm.init
  rw [h1]
  simp only
  rw [h2]

theorem QFsm.init_seq_witness :
    QFsm.init MyFSM (QFsm.new ()) MyStateId.state_a =
      (⟨some MyStateId.state_a, ()⟩,
       [(MyStateId.state_a, init_ev), (MyStateId.state_a, entry_ev)]) :=
  QFsm.init_seq MyFSM (QFsm.new ()) MyStateId.state_a () () Q_EVENT_HANDLED
    Q_EVENT_HANDLED (by decide) (by decide)

/-- C1: a dispatch on a running machine whose active handler `s` requests a
transition to a different handler `B` produces exactly the call sequence
`s` receives the triggering event, then `s` (the old handler) receives the
synthetic `EXIT`, then `B` receives the synthetic `ENTRY`, in that order;
afterwards the active handler is `B`.  The hypotheses `hexit` and `hentry`
state the handler contract that neither the `EXIT` nor the `ENTRY`
processing reassigns the `m_state` slot (their return values `r2`, `r3`
stay arbitrary, since the dispatcher discards them). -/
theorem QFsm.dispatch_transition_seq (H : QStateHandler S σ) (m : QFsm S σ)
    (e : QEvent) (s B : S) (a1 a2 a3 : σ) (r2 r3 : QState)
    (hs : m.m_state = some s) (hne : B ≠ s)
    (htr : H s s m.app e = (B, a1, Q_EVENT_TRAN))
    (hexit : H s B a1 exit_ev = (B, a2, r2))
    (hentry : H B B a2 entry_ev = (B, a3, r3)) :
    QFsm.dispatch H m e =
      (⟨some B, a3⟩, [(s, e), (s, exit_ev), (B, entry_ev)]) := by
  rw [QFsm.dispatch_of_some H m e s hs,
    QFsm.dispatchRun_tran H s m.app e B a1 htr, hexit]
  simp only
  rw [hentry]

theorem QFsm.dispatch_transition_seq_witness :
    QFsm.dispatch MyFSM myfsm0 ⟨Q_TIMEOUT_SIG⟩ =
      (⟨some MyStateId.state_b, ()⟩,
       [(MyStateId.state_a, ⟨Q_TIMEOUT_SIG⟩), (MyStateId.state_a, exit_ev),
        (MyStateId.state_b, entry_ev)]) :=
  QFsm.dispatch_transition_seq MyFSM myfsm0 ⟨Q_TIMEOUT_SIG⟩
    MyStateId.state_a MyStateId.state_b () () () Q_EVENT_HANDLED
    Q_EVENT_HANDLED (by decide) (by decide) (by decide) (by decide)
    (by decide)

/-- C3: a self-transition is not special-cased: if the active handler `s`
requests a transition to itself, the call sequence is `s` receives the
event, `s` receives `EXIT`, `s` receives `ENTRY`, and the active handler
is still `s` (with the same handler-contract hypotheses on the `EXIT` and
`ENTRY` invocations as for an ordinary transition). -/
theorem QFsm.dispatch_self_transition (H : QStateHandler S σ)
    (m : QFsm S σ) (e : QEvent) (s : S) (a1 a2 a3 : σ) (r2 r3 : QState)
    (hs : m.m_state = some s)
    (htr : H s s m.app e = (s, a1, Q_EVENT_TRAN))
    (hexit : H s s a1 exit_ev = (s, a2, r2))
    (hentry : H s s a2 entry_ev = (s, a3, r3)) :
    QFsm.dispatch H m e =
      (⟨some s, a3⟩, [(s, e), (s, exit_ev), (s, entry_ev)]) := by
  rw [QFsm.dispatch_of_some H m e s hs,
    QFsm.dispatchRun_tran H s m.app e s a1 htr, hexit]
  simp only
  rw [hentry]

theorem QFsm.dispatch_self_transition_witness :
    QFsm.dispatch demoH (⟨some DemoState.sB, ()⟩ : QFsm DemoState Unit)
        ⟨12⟩ =
      (⟨some DemoState.sB, ()⟩,
       [(DemoState.sB, ⟨12⟩), (DemoState.sB, exit_ev),
        (DemoState.sB, entry_ev)]) :=
  QFsm.dispatch_self_transition demoH ⟨some DemoState.sB, ()⟩ ⟨12⟩
    DemoState.sB () () () Q_EVENT_HANDLED Q_EVENT_HANDLED (by decide)
    (by decide) (by decide) (by decide)

/-- C9: the target of the synthetic `ENTRY` invocation is whatever the
`m_state` slot holds after the old handler's `EXIT` invocation has
returned (`s2` below), not necessarily the handler `s1` recorded by the
triggering event: the dispatcher re-reads `m_state` between the two
calls. -/
theorem QFsm.entry_target_after_exit (H : QStateHandler S σ)
    (m : QFsm S σ) (e : QEvent) (s s1 s2 : S) (a1 a2 : σ) (r2 : QState)
    (hs : m.m_state = some s)
    (htr : H s s m.app e = (s1, a1, Q_EVENT_TRAN))
    (hexit : H s s1 a1 exit_ev = (s2, a2, r2)) :
    QFsm.dispatch H m e =
      (⟨some (H s2 s2 a2 entry_ev).1, (H s2 s2 a2 entry_ev).2.1⟩,
       [(s, e), (s, exit_ev), (s2, entry_ev)]) := by
  rw [QFsm.dispatch_of_some H m e s hs,
    QFsm.dispatchRun_tran H s m.app e s1 a1 htr, hexit]

/-- In the witness, `sA` transitions to `sB` on signal 10 but its `EXIT`
processing performs `Q_TRAN(sC)`, so `ENTRY` is delivered to `sC`, not to
the `sB` recorded by the triggering event. -/
theorem QFsm.entry_target_after_exit_witness :
    QFsm.dispatch demoH (⟨some DemoState.sA, ()⟩ : QFsm DemoState Unit)
        ⟨10⟩ =
      (⟨some DemoState.sA, ()⟩,
       [(DemoState.sA, ⟨10⟩), (DemoState.sA, exit_ev),
        (DemoState.sC, entry_ev)]) :=
  QFsm.entry_target_after_exit demoH ⟨some DemoState.sA, ()⟩ ⟨10⟩
    DemoState.sA DemoState.sB DemoState.sC () () Q_EVENT_TRAN (by decide)
    (by decide) (by decide)

/-- C10: a single dispatch performs at most three handler invocations, and
in the transition case exactly three: the triggering event to `s`, one
`EXIT` to `s`, and one `ENTRY` to the handler `s2` the slot holds after
`EXIT`.  The return values of the `EXIT` and `ENTRY` invocations are
discarded: even when those invocations reassign the slot (arbitrary `s2`
and entry result below), no further synthetic event is delivered in this
dispatch call — in particular the handler recorded during `ENTRY`
processing becomes active without receiving its own `ENTRY`. -/
theorem QFsm.dispatch_call_bound (H : QStateHandler S σ) (m : QFsm S σ)
    (e : QEvent) (s s1 s2 : S) (a1 a2 : σ) (r2 : QState)
    (hs : m.m_state = some s)
    (htr : H s s m.app e = (s1, a1, Q_EVENT_TRAN))
    (hexit : H s s1 a1 exit_ev = (s2, a2, r2)) :
    (∀ (m' : QFsm S σ) (e' : QEvent),
        (QFsm.dispatch H m' e').2.length ≤ 3) ∧
    (QFsm.dispatch H m e).2 = [(s, e), (s, exit_ev), (s2, entry_ev)] ∧
    (QFsm.dispatch H m e).1.m_state = some (H s2 s2 a2 entry_ev).1 := by
  refine ⟨fun m' e' => ?_, ?_, ?_⟩
  · unfold QFsm.dispatch
    match h : m'.m_state with
    | none => simp
    | some s' =>
      unfold QFsm.dispatchRun
      by_cases hc : (H s' s' m'.app e').2.2 = Q_EVENT_TRAN <;> simp [hc]
  · rw [QFsm.dispatch_of_some H m e s hs,
      QFsm.dispatchRun_tran H s m.app e s1 a1 htr, hexit]
  · rw [QFsm.dispatch_of_some H m e s hs,
      QFsm.dispatchRun_tran H s m.app e s1 a1 htr, hexit]

/-- In the witness, `sA` transitions to `sB`, `sA`'s `EXIT` redirects the
slot to `sC`, and `sC`'s `ENTRY` performs `Q_TRAN(sA)`: exactly three
invocations happen, and `sA` ends up active without ever receiving an
`ENTRY`. -/
theorem QFsm.dispatch_call_bound_witness :
    (∀ (m' : QFsm DemoState Unit) (e' : QEvent),
        (QFsm.dispatch demoH m' e').2.length ≤ 3) ∧
    (QFsm.dispatch demoH
        (⟨some DemoState.sA, ()⟩ : QFsm DemoState Unit) ⟨10⟩).2 =
      [(DemoState.sA, ⟨10⟩), (DemoState.sA, exit_ev),
       (DemoState.sC, entry_ev)] ∧
    (QFsm.dispatch demoH
        (⟨some DemoState.sA, ()⟩ : QFsm DemoState Unit) ⟨10⟩).1.m_state =
      some DemoState.sA :=
  QFsm.dispatch_call_bound demoH ⟨some DemoState.sA, ()⟩ ⟨10⟩
    DemoState.sA DemoState.sB DemoState.sC () () Q_EVENT_TRAN (by decide)
    (by decide) (by decide)

/-- Helper: over a list of events on each of which the handler `s0` keeps
the slot at `s0` and returns something other than `Q_EVENT_TRAN`, a run of
dispatches starting at slot `s0` keeps the slot at `s0` and performs
exactly one invocation — the triggering delivery to `s0` — per event. -/
theorem QFsm.dispatchSeq_no_tran_aux (H : QStateHandler S σ) (s0 : S)
    (es : List QEvent)
    (hno : ∀ e ∈ es, ∀ a : σ,
      (H s0 s0 a e).1 = s0 ∧ (H s0 s0 a e).2.2 ≠ Q_EVENT_TRAN) :
    ∀ a : σ, ∃ a' : σ,
      QFsm.dispatchSeq H ⟨some s0, a⟩ es =
        (⟨some s0, a'⟩, es.map fun e => (s0, e)) := by
  induction es with
  | nil => exact fun a => ⟨a, rfl⟩
  | cons e es ih =>
    intro a
    obtain ⟨h1, h2⟩ := hno e (List.mem_cons_self e es) a
    have hd := QFsm.dispatchRun_no_tran H s0 a e (H s0 s0 a e).1
      (H s0 s0 a e).2.1 (H s0 s0 a e).2.2 rfl h2
    rw [h1] at hd
    obtain ⟨a', ha'⟩ :=
      ih (fun e' he' a' => hno e' (List.mem_cons_of_mem e he') a')
        ((H s0 s0 a e).2.1)
    refine ⟨a', ?_⟩
    unfold QFsm.dispatchSeq
    rw [QFsm.dispatch_of_some H ⟨some s0, a⟩ e s0 rfl, hd]
    simp only
    rw [ha']
    simp

/-- C5: a run of dispatches on a running machine in which every triggering
invocation keeps the slot and returns "handled" or "ignored" (anything but
`Q_EVENT_TRAN`) leaves the active handler unchanged, and the whole
invocation trace consists of exactly the triggering deliveries to the
active handler — so no synthetic `EXIT` or `ENTRY` invocation occurs at
any point of the sequence. -/
theorem QFsm.dispatch_seq_no_transition (H : QStateHandler S σ)
    (m : QFsm S σ) (s0 : S) (es : List QEvent)
    (hs : m.m_state = some s0)
    (hno : ∀ e ∈ es, ∀ a : σ,
      (H s0 s0 a e).1 = s0 ∧ (H s0 s0 a e).2.2 ≠ Q_EVENT_TRAN) :
    (QFsm.dispatchSeq H m es).1.m_state = m.m_state ∧
    (QFsm.dispatchSeq H m es).2 = es.map fun e => (s0, e) := by
  obtain ⟨ms, a⟩ := m
  simp only at hs
  subst hs
  obtain ⟨a', ha'⟩ := QFsm.dispatchSeq_no_tran_aux H s0 es hno a
  rw [ha']
  exact ⟨rfl, rfl⟩

theorem QFsm.dispatch_seq_no_transition_witness :
    (QFsm.dispatchSeq MyFSM myfsm0 [⟨100⟩, ⟨200⟩]).1.m_state =
      myfsm0.m_state ∧
    (QFsm.dispatchSeq MyFSM myfsm0 [⟨100⟩, ⟨200⟩]).2 =
      [(MyStateId.state_a, ⟨100⟩), (MyStateId.state_a, ⟨200⟩)] :=
  QFsm.dispatch_seq_no_transition MyFSM myfsm0 MyStateId.state_a
    [⟨100⟩, ⟨200⟩] (by decide)
    (by
      intro e he a
      cases a
      fin_cases he <;> exact ⟨by decide, by decide⟩)

/-- C8: if the active handler reports an event as "ignored" (keeping the
slot), dispatching that same event any number `N` of times yields `N`
independent single deliveries of the event to that handler — each reported
as ignored by the hypothesis — with no synthetic `EXIT`/`ENTRY` and the
active handler unchanged after each of the `N` dispatches (the conclusion
holds for every `N`, hence for every prefix of the run). -/
theorem QFsm.dispatch_ignored_idempotent (H : QStateHandler S σ)
    (m : QFsm S σ) (s0 : S) (e : QEvent)
    (hs : m.m_state = some s0)
    (hign : ∀ a : σ,
      (H s0 s0 a e).1 = s0 ∧ (H s0 s0 a e).2.2 = Q_EVENT_IGNORED) :
    ∀ N : Nat, ∃ a' : σ,
      QFsm.dispatchSeq H m (List.replicate N e) =
        (⟨some s0, a'⟩, List.replicate N (s0, e)) := by
  intro N
  obtain ⟨ms, a⟩ := m
  simp only at hs
  subst hs
  have hno : ∀ e' ∈ List.replicate N e, ∀ a : σ,
      (H s0 s0 a e').1 = s0 ∧ (H s0 s0 a e').2.2 ≠ Q_EVENT_TRAN := by
    intro e' he' a'
    rw [List.eq_of_mem_replicate he']
    obtain ⟨h1, h2⟩ := hign a'
    refine ⟨h1, ?_⟩
    rw [h2]
    decide
  obtain ⟨a', ha'⟩ := QFsm.dispatchSeq_no_tran_aux H s0 _ hno a
  rw [List.map_replicate] at ha'
  exact ⟨a', ha'⟩

theorem QFsm.dispatch_ignored_idempotent_witness :
    ∃ a' : Unit,
      QFsm.dispatchSeq demoH
          (⟨some DemoState.sA, ()⟩ : QFsm DemoState Unit)
          (List.replicate 3 ⟨11⟩) =
        (⟨some DemoState.sA, a'⟩,
         List.replicate 3 (DemoState.sA, ⟨11⟩)) :=
  QFsm.dispatch_ignored_idempotent demoH ⟨some DemoState.sA, ()⟩
    DemoState.sA ⟨11⟩ rfl (fun a => by cases a; exact ⟨by decide, by decide⟩) 3

/-- C7 counterexample: in the `main.cpp` scenario — `init(state_a)` then
ten `TIMEOUT` dispatches — the first dispatch already moves the machine to
`state_b`, so the after-each-dispatch sequence starts with `state_b` (not
`state_a` as claimed), and after the tenth dispatch the active handler is
`state_a`, not `state_b` as claimed. -/
theorem QFsm.ten_timeouts_counterexample :
    (QFsm.dispatchSeq MyFSM myfsm0
        (List.replicate 10 ⟨Q_TIMEOUT_SIG⟩)).1.m_state =
      some MyStateId.state_a ∧
    some MyStateId.state_a ≠ some MyStateId.state_b ∧
    (QFsm.afterStates MyFSM myfsm0
        (List.replicate 10 ⟨Q_TIMEOUT_SIG⟩)).head? =
      some (some MyStateId.state_b) ∧
    some (some MyStateId.state_b) ≠ some (some MyStateId.state_a) := by
  decide

/-- C7 amended: starting from `init(state_a)` (which delivers `INIT` then
`ENTRY` to `state_a`), ten `TIMEOUT` dispatches yield the active-state
sequence `B,A,B,A,B,A,B,A,B,A` after each successive dispatch (ending with
`state_a` active), and the full invocation trace interleaves exactly 10
`TIMEOUT` deliveries, 10 `EXIT` calls and 10 `ENTRY` calls, each dispatch
contributing one triggering delivery, one `EXIT` on the outgoing state and
one `ENTRY` on the incoming state. -/
theorem QFsm.ten_timeouts_amended :
    (QFsm.init MyFSM (QFsm.new ()) MyStateId.state_a).2 =
      [(MyStateId.state_a, init_ev), (MyStateId.state_a, entry_ev)] ∧
    myfsm0.m_state = some MyStateId.state_a ∧
    QFsm.afterStates MyFSM myfsm0 (List.replicate 10 ⟨Q_TIMEOUT_SIG⟩) =
      [some MyStateId.state_b, some MyStateId.state_a,
       some MyStateId.state_b, some MyStateId.state_a,
       some MyStateId.state_b, some MyStateId.state_a,
       some MyStateId.state_b, some MyStateId.state_a,
       some MyStateId.state_b, some MyStateId.state_a] ∧
    (QFsm.dispatchSeq MyFSM myfsm0
        (List.replicate 10 ⟨Q_TIMEOUT_SIG⟩)).2 =
      [(MyStateId.state_a, ⟨Q_TIMEOUT_SIG⟩), (MyStateId.state_a, exit_ev),
       (MyStateId.state_b, entry_ev),
       (MyStateId.state_b, ⟨Q_TIMEOUT_SIG⟩), (MyStateId.state_b, exit_ev),
       (MyStateId.state_a, entry_ev),
       (MyStateId.state_a, ⟨Q_TIMEOUT_SIG⟩), (MyStateId.state_a, exit_ev),
       (MyStateId.state_b, entry_ev),
       (MyStateId.state_b, ⟨Q_TIMEOUT_SIG⟩), (MyStateId.state_b, exit_ev),
       (MyStateId.state_a, entry_ev),
       (MyStateId.state_a, ⟨Q_TIMEOUT_SIG⟩), (MyStateId.state_a, exit_ev),
       (MyStateId.state_b, entry_ev),
       (MyStateId.state_b, ⟨Q_TIMEOUT_SIG⟩), (MyStateId.state_b, exit_ev),
       (MyStateId.state_a, entry_ev),
       (MyStateId.state_a, ⟨Q_TIMEOUT_SIG⟩), (MyStateId.state_a, exit_ev),
       (MyStateId.state_b, entry_ev),
       (MyStateId.state_b, ⟨Q_TIMEOUT_SIG⟩), (MyStateId.state_b, exit_ev),
       (MyStateId.state_a, entry_ev),
       (MyStateId.state_a, ⟨Q_TIMEOUT_SIG⟩), (MyStateId.state_a, exit_ev),
       (MyStateId.state_b, entry_ev),
       (MyStateId.state_b, ⟨Q_TIMEOUT_SIG⟩), (MyStateId.state_b, exit_ev),
       (MyStateId.state_a, entry_ev)] ∧
    ((QFsm.dispatchSeq MyFSM myfsm0
        (List.replicate 10 ⟨Q_TIMEOUT_SIG⟩)).2.filter
      fun c => c.2.sig == Q_EXIT_SIG).length = 10 ∧
    ((QFsm.dispatchSeq MyFSM myfsm0
        (List.replicate 10 ⟨Q_TIMEOUT_SIG⟩)).2.filter
      fun c => c.2.sig == Q_ENTRY_SIG).length = 10 ∧
    ((QFsm.dispatchSeq MyFSM myfsm0
        (List.replicate 10 ⟨Q_TIMEOUT_SIG⟩)).2.filter
      fun c => c.2.sig == Q_TIMEOUT_SIG).length = 10 := by
  decide
